import Mathlib

/-!
# Verification of the backup application (`src/backup_app.cpp`)

Shallow embedding of the change-detection and snapshot-construction engine of
the backup program.  The filesystem is modelled as an explicit value: a list of
regular files (absolute path as a list of components, plus byte content and
metadata), a list of existing directories, and oracles saying which operations
fail (unreadable files, failing `create_directories` targets, failing
`copy_file` destinations, failing `create_hard_link` destinations).  Exceptions
of the C++ code are modelled with `Except String`: an operation the code does
not guard with `try`/`catch` propagates its error to the caller, exactly as an
uncaught C++ exception would.

The MD5 digest is modelled as the identity function on file content: the
program only ever compares digests for equality, so any injective digest is an
adequate model of MD5 on collision-free inputs (the specification itself notes
that any collision-resistant digest is acceptable, because the digest is used
for change detection rather than security).

Each definition mirrors one function of `BackupApp` in `src/backup_app.cpp`
and keeps its name: `calculate_md5`, `scan_directory`, `create_backup`,
`incremental_backup`.  The clock (`current_timestamp`) is an input parameter,
console output is dropped, and the Chinese console/history strings are
replaced by English placeholders of the same shape (no claim inspects the
text of a history line, only how many lines are appended).
-/

namespace BackupApp

/-- A regular file on disk: absolute path (as components), byte content,
size and modification time.  `size` and `mtime` are independent metadata
fields, as on a real filesystem. -/
structure DiskFile where
  path : List String
  content : String
  size : Nat
  mtime : Int
deriving DecidableEq

/-- The filesystem state together with fault oracles.  `unreadable` lists
files whose open-for-read fails (`calculate_md5` / copy source), `mkdirFail`
lists `create_directories` targets that throw, `copyFail` lists `copy_file`
destinations that throw, `linkFail` lists `create_hard_link` destinations that
throw for a reason other than an existing destination (e.g. cross-device).
`historyFail` models the history-file `ofstream` failing to open. -/
structure Fs where
  files : List DiskFile
  dirs : List (List String)
  unreadable : List (List String)
  mkdirFail : List (List String)
  copyFail : List (List String)
  linkFail : List (List String)
  historyFail : Bool
deriving DecidableEq

/-- `BackupApp::FileInfo`: one scanned file (absolute path, digest,
size, last-modified time). -/
structure FileInfo where
  path : List String
  md5 : String
  size : Nat
  last_modified : Int
deriving DecidableEq

/-- `BackupApp::BackupInfo`: one ledger record. -/
structure BackupInfo where
  timestamp : String
  backup_path : List String
  file_count : Nat
  copied_files : Nat
  source_dir : List String
  is_incremental : Bool
  based_on : String
deriving DecidableEq

/-- The whole mutable state of one `BackupApp` object plus its environment:
the filesystem, the in-memory `backup_history` vector, and the lines of the
`backup_history.txt` file. -/
structure World where
  fs : Fs
  backup_history : List BackupInfo
  historyFile : List String
deriving DecidableEq

/-- `path.parent_path()` of `std::filesystem`. -/
def parent_path (p : List String) : List String := p.dropLast

/-- `fs::relative(p, root)` for the case (the only one the program exercises)
where `root` is a prefix of `p`: drop the leading components. -/
def relative (p root : List String) : List String := p.drop root.length

/-- A path lies strictly under a directory (the directory is a proper
prefix). -/
def under_dir (root p : List String) : Bool :=
  root.isPrefixOf p && decide (root.length < p.length)

/-- `fs::exists`: either a directory or a regular file exists at `p`. -/
def fs_exists (fs : Fs) (p : List String) : Bool :=
  fs.dirs.contains p || fs.files.any (fun f => f.path == p)

/-- `BackupApp::calculate_md5` applied to a scanned directory entry: throws
when the file cannot be opened for reading, otherwise returns the digest of
its content (modelled as the content itself, see the file header). -/
def calculate_md5 (fs : Fs) (f : DiskFile) : Except String String :=
  if f.path ∈ fs.unreadable then Except.error "cannot open file"
  else Except.ok f.content

/-- Conversion of a disk file into the scan record the program builds for
it. -/
def file_record (f : DiskFile) : FileInfo :=
  { path := f.path, md5 := f.content, size := f.size, last_modified := f.mtime }

/-- `BackupApp::scan_directory`: every regular file strictly under `dir_path`
is fingerprinted; a per-file exception (unreadable file) is caught inside the
loop and the file is skipped, so the scan itself never throws. -/
def scan_directory (fs : Fs) (dir_path : List String) : List FileInfo :=
  fs.files.filterMap (fun f =>
    if under_dir dir_path f.path then
      match calculate_md5 fs f with
      | Except.error _ => none
      | Except.ok h =>
        some { path := f.path, md5 := h, size := f.size, last_modified := f.mtime }
    else none)

/-- All nonempty ancestors of a path, the path itself included (what
`fs::create_directories` creates). -/
def ancestors (p : List String) : List (List String) :=
  (List.range p.length).map (fun i => p.take (i + 1))

/-- `fs::create_directories`: throws on targets in the `mkdirFail` oracle,
otherwise records the target directory and its ancestors as existing. -/
def fs_create_directories (fs : Fs) (p : List String) : Except String Fs :=
  if p ∈ fs.mkdirFail then Except.error "create_directories failed"
  else Except.ok { fs with dirs := fs.dirs ++ ancestors p }

/-- Write (or overwrite) the regular file at `p`. -/
def set_file (fs : Fs) (p : List String) (content : String) (size : Nat)
    (mtime : Int) : Fs :=
  { fs with files :=
      fs.files.filter (fun f => f.path != p) ++ [⟨p, content, size, mtime⟩] }

/-- `fs::copy_file(src, dst, overwrite_existing)`: throws when the destination
is in the `copyFail` oracle or the source is missing or unreadable; otherwise
the destination receives the source bytes. -/
def fs_copy_file (fs : Fs) (src dst : List String) : Except String Fs :=
  if dst ∈ fs.copyFail then Except.error "copy_file failed"
  else
    match fs.files.find? (fun f => f.path == src) with
    | none => Except.error "cannot open file"
    | some f =>
      if src ∈ fs.unreadable then Except.error "cannot open file"
      else Except.ok (set_file fs dst f.content f.size f.mtime)

/-- `fs::create_hard_link(src, dst)`: throws when the destination already
exists, when the destination is in the `linkFail` oracle (cross-device,
unsupported filesystem, permission), or when the source is missing; otherwise
the destination shares the source's bytes. -/
def fs_create_hard_link (fs : Fs) (src dst : List String) : Except String Fs :=
  if fs.files.any (fun f => f.path == dst) then Except.error "destination exists"
  else if dst ∈ fs.linkFail then Except.error "create_hard_link failed"
  else
    match fs.files.find? (fun f => f.path == src) with
    | none => Except.error "no such file"
    | some f => Except.ok (set_file fs dst f.content f.size f.mtime)

/-- The copy loop shared by `create_backup` (lines 115-127) and
`incremental_backup` (lines 209-221): for each file, `create_directories` on
the destination parent is *outside* the `try` block (its failure propagates),
the `copy_file` itself is inside (its failure is caught and the loop
continues without incrementing the counter). -/
def copy_from_source_loop (fs : Fs) (files : List FileInfo)
    (source_dir dest_root : List String) : Except String (Fs × Nat) :=
  match files with
  | [] => Except.ok (fs, 0)
  | fi :: rest =>
    let dest := dest_root ++ relative fi.path source_dir
    match fs_create_directories fs (parent_path dest) with
    | Except.error e => Except.error e
    | Except.ok fs1 =>
      match fs_copy_file fs1 fi.path dest with
      | Except.error _ => copy_from_source_loop fs1 rest source_dir dest_root
      | Except.ok fs2 =>
        match copy_from_source_loop fs2 rest source_dir dest_root with
        | Except.error e => Except.error e
        | Except.ok (fs3, n) => Except.ok (fs3, n + 1)

/-- Phase 1 of `incremental_backup` (lines 183-195): a source file is
scheduled for copying when `find_if` over the prior snapshot's records — which
compares the source file's relative path against the prior record's path made
relative to its *double parent* directory — finds no match, or finds a record
with a different digest. -/
def files_to_backup (source_files backup_files : List FileInfo)
    (source_dir : List String) : List FileInfo :=
  source_files.filter (fun sf =>
    let rel := relative sf.path source_dir
    match backup_files.find? (fun bf =>
        relative bf.path (parent_path (parent_path bf.path)) == rel) with
    | none => true
    | some bf => sf.md5 != bf.md5)

/-- Phase 2 of `incremental_backup` (lines 229-236): the `need_copy` flag for
a prior-snapshot record — true exactly when no source file has the same
relative path and the same digest. -/
def need_copy_from_prior (bf : FileInfo) (source_files : List FileInfo)
    (source_dir latest_backup : List String) : Bool :=
  let rel := relative bf.path latest_backup
  !(source_files.any (fun sf =>
      relative sf.path source_dir == rel && sf.md5 == bf.md5))

/-- Phase 2 of `incremental_backup` (lines 225-252): for every prior-snapshot
record with `need_copy`, create the destination parent (uncaught on failure),
try a hard link, on any link failure fall back to `copy_file`, and catch a
failure of the fallback copy (the loop continues). -/
def link_from_prior_loop (fs : Fs) (bfs source_files : List FileInfo)
    (source_dir latest_backup dest_root : List String) : Except String Fs :=
  match bfs with
  | [] => Except.ok fs
  | bf :: rest =>
    if need_copy_from_prior bf source_files source_dir latest_backup then
      let dest := dest_root ++ relative bf.path latest_backup
      match fs_create_directories fs (parent_path dest) with
      | Except.error e => Except.error e
      | Except.ok fs1 =>
        match fs_create_hard_link fs1 bf.path dest with
        | Except.ok fs2 =>
          link_from_prior_loop fs2 rest source_files source_dir latest_backup dest_root
        | Except.error _ =>
          match fs_copy_file fs1 bf.path dest with
          | Except.ok fs2 =>
            link_from_prior_loop fs2 rest source_files source_dir latest_backup dest_root
          | Except.error _ =>
            link_from_prior_loop fs1 rest source_files source_dir latest_backup dest_root
    else
      link_from_prior_loop fs rest source_files source_dir latest_backup dest_root

/-- Append one line to `backup_history.txt` (lines 140-145 / 265-270): the
`ofstream` is checked, so when opening fails the line is silently dropped. -/
def append_history_line (w : World) (line : String) : World :=
  if w.fs.historyFail then w else { w with historyFile := w.historyFile ++ [line] }

/-- Render a path for a history line. -/
def path_to_string (p : List String) : String := String.intercalate "/" p

/-- `BackupApp::create_backup` (lines 99-150).  The timestamp is the clock
reading, passed as an argument. -/
def create_backup (w : World) (timestamp : String)
    (source_dir backup_dir : List String) : Except String (Bool × World) :=
  if !(fs_exists w.fs source_dir) then Except.ok (false, w)
  else
    let current_backup_dir := backup_dir ++ ["backup_" ++ timestamp]
    match fs_create_directories w.fs current_backup_dir with
    | Except.error e => Except.error e
    | Except.ok fs1 =>
      let source_files := scan_directory fs1 source_dir
      match copy_from_source_loop fs1 source_files source_dir current_backup_dir with
      | Except.error e => Except.error e
      | Except.ok (fs2, copied_files) =>
        let info : BackupInfo :=
          { timestamp := timestamp, backup_path := current_backup_dir,
            file_count := source_files.length, copied_files := copied_files,
            source_dir := source_dir, is_incremental := false, based_on := "" }
        let line := timestamp ++ ": backup of " ++ path_to_string source_dir ++
          " (" ++ toString copied_files ++ "/" ++ toString source_files.length ++ " files)"
        Except.ok (true,
          append_history_line
            ⟨fs2, w.backup_history ++ [info], w.historyFile⟩ line)

/-- The C++ check `name.find("backup_") == 0`: the string starts with the
given pattern.  (Implemented structurally over the character list so that it
reduces definitionally; `String.isPrefixOf` of core does not.) -/
def starts_with (pre s : String) : Bool :=
  pre.data.isPrefixOf s.data

/-- The immediate subdirectories of the backup root whose name starts with
`backup_` (lines 160-165). -/
def snapshot_dirs (fs : Fs) (backup_dir : List String) : List (List String) :=
  fs.dirs.filter (fun d =>
    backup_dir.isPrefixOf d && d.length == backup_dir.length + 1 &&
      starts_with "backup_" (d.getLastD ""))

/-- Lexicographic order on paths, as `std::sort` orders `fs::path`. -/
def path_le : List String → List String → Bool
  | [], _ => true
  | _ :: _, [] => false
  | a :: as, b :: bs =>
    match compare a b with
    | Ordering.lt => true
    | Ordering.gt => false
    | Ordering.eq => path_le as bs

/-- `backups.back()` after `std::sort`: the maximal path. -/
def latest_snapshot (l : List (List String)) : List String :=
  l.foldl (fun acc d => if path_le acc d then d else acc) []

/-- `BackupApp::incremental_backup` (lines 153-275).  `directory_iterator`
over a missing backup root throws (uncaught). -/
def incremental_backup (w : World) (timestamp : String)
    (source_dir backup_dir : List String) : Except String (Bool × World) :=
  if !(fs_exists w.fs source_dir) then Except.ok (false, w)
  else if !(fs_exists w.fs backup_dir) then Except.error "directory_iterator failed"
  else
    let backups := snapshot_dirs w.fs backup_dir
    if backups.isEmpty then create_backup w timestamp source_dir backup_dir
    else
      let latest_backup := latest_snapshot backups
      let source_files := scan_directory w.fs source_dir
      let backup_files := scan_directory w.fs latest_backup
      let to_backup := files_to_backup source_files backup_files source_dir
      if to_backup.isEmpty then Except.ok (false, w)
      else
        let current_backup_dir := backup_dir ++ ["backup_" ++ timestamp]
        match fs_create_directories w.fs current_backup_dir with
        | Except.error e => Except.error e
        | Except.ok fs1 =>
          match copy_from_source_loop fs1 to_backup source_dir current_backup_dir with
          | Except.error e => Except.error e
          | Except.ok (fs2, copied_files) =>
            match link_from_prior_loop fs2 backup_files source_files source_dir
                latest_backup current_backup_dir with
            | Except.error e => Except.error e
            | Except.ok fs3 =>
              let info : BackupInfo :=
                { timestamp := timestamp, backup_path := current_backup_dir,
                  file_count := source_files.length, copied_files := copied_files,
                  source_dir := source_dir, is_incremental := true,
                  based_on := latest_backup.getLastD "" }
              let line := timestamp ++ ": incremental backup of " ++
                path_to_string source_dir ++ " (" ++ toString copied_files ++ "/" ++
                toString to_backup.length ++ " changed files)"
              Except.ok (true,
                append_history_line
                  ⟨fs3, w.backup_history ++ [info], w.historyFile⟩ line)

/-- Observation of a run used by several theorems: the success flag and the
content of the in-memory ledger. -/
def obs_run (r : Except String (Bool × World)) :
    Except String (Bool × List BackupInfo) :=
  r.map (fun p => (p.1, p.2.backup_history))

/-- The boolean outcome of a run, when it did not throw. -/
def run_outcome (r : Except String (Bool × World)) : Option Bool :=
  match r with
  | Except.ok p => some p.1
  | Except.error _ => none

/-- The `copied_files` fields of the ledger after a run, when it did not
throw. -/
def run_copied (r : Except String (Bool × World)) : Option (List Nat) :=
  match r with
  | Except.ok p => some (p.2.backup_history.map (fun i => i.copied_files))
  | Except.error _ => none

/-- Content of the file at `p`, if present. -/
def file_content (fs : Fs) (p : List String) : Option String :=
  (fs.files.find? (fun f => f.path == p)).map (fun f => f.content)

/-- Content of the file at `p` in the world a run produced, when the run did
not throw. -/
def run_file (r : Except String (Bool × World)) (p : List String) : Option String :=
  match r with
  | Except.ok q => file_content q.2.fs p
  | Except.error _ => none

/-! ### Auxiliary definitions for the theorems -/

/-- The filesystem with its hard-link failure oracle replaced, all else equal (used to state that the recorded counts do not depend on link failures). -/
def with_linkFail (fs : Fs) (L : List (List String)) : Fs :=
  { fs with linkFail := L }

/-- The world with the filesystem's hard-link failure oracle replaced. -/
def with_linkFail_w (w : World) (L : List (List String)) : World :=
  { w with fs := with_linkFail w.fs L }

/-- The error component of a filesystem-returning step: `some e` when the step threw `e`, `none` when it succeeded. -/
def res_err (r : Except String Fs) : Option String :=
  match r with
  | Except.ok _ => none
  | Except.error e => some e

/-! ### Concrete worlds used by the claim theorems -/

/-- Claim C1 scenario: one top-level file `f.txt`, byte-identical between the source tree and the (single) prior snapshot. -/
def W1 : World :=
  ⟨⟨[⟨["src", "f.txt"], "A", 1, 0⟩,
     ⟨["bak", "backup_20240101_120000", "f.txt"], "A", 1, 0⟩],
    [["src"], ["bak"], ["bak", "backup_20240101_120000"]],
    [], [], [], [], false⟩, [], []⟩

/-- Claim C2 scenario: the source has one new file `new.txt`; the prior snapshot has `gone.txt` (deleted from the source), whose hard link into the new snapshot is forced to fail, so it is materialized by the fallback copy. -/
def W2 : World :=
  ⟨⟨[⟨["src", "new.txt"], "N", 1, 0⟩,
     ⟨["bak", "backup_20240101_120000", "gone.txt"], "OLD", 1, 0⟩],
    [["src"], ["bak"], ["bak", "backup_20240101_120000"]],
    [], [], [], [["bak", "backup_20240102_120000", "gone.txt"]], false⟩, [], []⟩

/-- Claim C3 scenario: one unchanged file `d/k.txt` at depth two (the only depth at which the classifier recognises an unchanged file), so an incremental run detects no changes. -/
def W3 : World :=
  ⟨⟨[⟨["src", "d", "k.txt"], "K", 1, 0⟩,
     ⟨["bak", "backup_20240101_120000", "d", "k.txt"], "K", 1, 0⟩],
    [["src"], ["src", "d"], ["bak"], ["bak", "backup_20240101_120000"],
     ["bak", "backup_20240101_120000", "d"]],
    [], [], [], [], false⟩, [], []⟩

/-- Claim C4 scenario: `create_directories` is forced to fail for the snapshot directory of timestamp `20240102_120000`. -/
def W4 : World :=
  ⟨⟨[⟨["src", "a.txt"], "A", 1, 0⟩],
    [["src"], ["bak"]],
    [], [["bak", "backup_20240102_120000"]], [], [], false⟩, [], []⟩

/-- Claim C5 scenario: the source's `x/f.txt` (content B) differs from the prior snapshot's `x/f.txt` (content A), but the prior snapshot also holds `d/x/f.txt` with content B, whose last two path components alias `x/f.txt` in the double-parent lookup; the aliasing record is scanned first. -/
def W5 : World :=
  ⟨⟨[⟨["src", "x", "f.txt"], "B", 1, 0⟩,
     ⟨["bak", "backup_20240101_120000", "d", "x", "f.txt"], "B", 1, 0⟩,
     ⟨["bak", "backup_20240101_120000", "x", "f.txt"], "A", 1, 0⟩],
    [["src"], ["src", "x"], ["bak"], ["bak", "backup_20240101_120000"],
     ["bak", "backup_20240101_120000", "d"], ["bak", "backup_20240101_120000", "d", "x"],
     ["bak", "backup_20240101_120000", "x"]],
    [], [], [], [], false⟩, [], []⟩

/-- Claim C6 scenario: an existing but empty backup root (no `backup_`-prefixed subdirectory). -/
def W6 : World :=
  ⟨⟨[⟨["src", "a.txt"], "A", 1, 0⟩], [["src"], ["bak"]], [], [], [], [], false⟩, [], []⟩

/-- Claim C7 scenario: `sub/a.txt` is unchanged between source and prior snapshot and its hard-link destination in the would-be new snapshot is forced to fail (Scenario E of the specification); `n.txt` is new, so a snapshot is created. -/
def W7 : World :=
  ⟨⟨[⟨["src", "sub", "a.txt"], "A", 1, 0⟩,
     ⟨["src", "n.txt"], "N", 1, 0⟩,
     ⟨["bak", "backup_20240101_120000", "sub", "a.txt"], "A", 1, 0⟩],
    [["src"], ["src", "sub"], ["bak"], ["bak", "backup_20240101_120000"],
     ["bak", "backup_20240101_120000", "sub"]],
    [], [], [], [["bak", "backup_20240102_120000", "sub", "a.txt"]], false⟩, [], []⟩

/-- Claim C8 scenario: an entirely empty filesystem, so the source root `src` does not exist. -/
def W8 : World := ⟨⟨[], [], [], [], [], [], false⟩, [], []⟩

/-- Claim C9 scenario: `docs/r.txt` unchanged, `add.txt` new in the source, `old.txt` present only in the prior snapshot (deleted from the source). -/
def W9 : World :=
  ⟨⟨[⟨["src", "docs", "r.txt"], "R", 1, 0⟩,
     ⟨["src", "add.txt"], "Z", 1, 0⟩,
     ⟨["bak", "backup_20240101_120000", "docs", "r.txt"], "R", 1, 0⟩,
     ⟨["bak", "backup_20240101_120000", "old.txt"], "D", 1, 0⟩],
    [["src"], ["src", "docs"], ["bak"], ["bak", "backup_20240101_120000"],
     ["bak", "backup_20240101_120000", "docs"]],
    [], [], [], [], false⟩, [], []⟩

/-- Claim C10 scenario: the source directory exists and contains no regular file. -/
def W10 : World :=
  ⟨⟨[], [["src"], ["bak"]], [], [], [], [], false⟩, [], []⟩

/-! ### Basic structural lemmas -/

/-- Appending a history line never changes the in-memory ledger. -/
theorem append_history_line_history (w : World) (line : String) :
    (append_history_line w line).backup_history = w.backup_history := by
  unfold append_history_line
  split <;> rfl

/-- When the history file opens, the append adds exactly one line. -/
theorem append_history_line_ok {w : World} (line : String)
    (h : w.fs.historyFail = false) :
    append_history_line w line = { w with historyFile := w.historyFile ++ [line] } := by
  unfold append_history_line
  rw [if_neg (by simp [h])]

/-- Writing a file leaves the directory-creation failure oracle unchanged. -/
theorem set_file_mkdirFail (fs : Fs) (p : List String) (c : String) (n : Nat) (m : Int) :
    (set_file fs p c n m).mkdirFail = fs.mkdirFail := rfl

/-- A successful `create_directories` leaves the failure oracle unchanged. -/
theorem mkdir_ok_mkdirFail {fs fs' : Fs} {p : List String}
    (h : fs_create_directories fs p = Except.ok fs') : fs'.mkdirFail = fs.mkdirFail := by
  unfold fs_create_directories at h
  split at h
  · exact absurd h (by simp)
  · cases h; rfl

/-- A successful `copy_file` leaves the directory-creation failure oracle unchanged. -/
theorem copy_ok_mkdirFail {fs fs' : Fs} {src dst : List String}
    (h : fs_copy_file fs src dst = Except.ok fs') : fs'.mkdirFail = fs.mkdirFail := by
  unfold fs_copy_file at h
  split at h
  · exact absurd h (by simp)
  · split at h
    · exact absurd h (by simp)
    · split at h
      · exact absurd h (by simp)
      · cases h; rfl

/-- A successful `create_hard_link` leaves the directory-creation failure oracle unchanged. -/
theorem link_ok_mkdirFail {fs fs' : Fs} {src dst : List String}
    (h : fs_create_hard_link fs src dst = Except.ok fs') : fs'.mkdirFail = fs.mkdirFail := by
  unfold fs_create_hard_link at h
  split at h
  · exact absurd h (by simp)
  · split at h
    · exact absurd h (by simp)
    · split at h
      · exact absurd h (by simp)
      · cases h; rfl

/-- A nonempty path is among the directories `create_directories` creates for it. -/
theorem ancestors_self {p : List String} (h : p ≠ []) : p ∈ ancestors p := by
  unfold ancestors
  have hlen : 0 < p.length := List.length_pos.mpr h
  refine List.mem_map.mpr ⟨p.length - 1, List.mem_range.mpr (by omega), ?_⟩
  rw [Nat.sub_add_cancel hlen, List.take_length]

/-! ### Scan lemmas -/

/-- The scan inventories exactly the readable regular files strictly under the root. -/
theorem scan_mem_iff (fs : Fs) (d : List String) (r : FileInfo) :
    r ∈ scan_directory fs d ↔
      ∃ f ∈ fs.files, under_dir d f.path = true ∧ f.path ∉ fs.unreadable ∧
        r = file_record f := by
  unfold scan_directory calculate_md5
  rw [List.mem_filterMap]
  constructor
  · rintro ⟨f, hf, h⟩
    split at h
    · rename_i h1
      by_cases h2 : f.path ∈ fs.unreadable
      · rw [if_pos h2] at h
        exact absurd h (by simp)
      · rw [if_neg h2] at h
        rw [Option.some_inj] at h
        exact ⟨f, hf, h1, h2, h.symm⟩
    · exact absurd h (by simp)
  · rintro ⟨f, hf, h1, h2, h3⟩
    refine ⟨f, hf, ?_⟩
    rw [if_pos h1, if_neg h2, h3]
    rfl

/-- Scanning a directory holding no regular file yields the empty inventory. -/
theorem scan_nil_of_no_files {fs : Fs} {d : List String}
    (h : fs.files.all (fun f => !(under_dir d f.path)) = true) :
    scan_directory fs d = [] := by
  rw [List.eq_nil_iff_forall_not_mem]
  intro r hr
  obtain ⟨f, hf, h1, _, _⟩ := (scan_mem_iff fs d r).mp hr
  have hd := List.all_eq_true.mp h f hf
  simp only [Bool.not_eq_true'] at hd
  rw [h1] at hd
  exact absurd hd (by simp)

/-! ### Loop and full-backup lemmas -/

/-- The copy loop never throws when the destination parent directories can be created: a failing `copy_file` is caught per file and the loop continues. -/
theorem copy_loop_total (sd dr : List String) : ∀ (files : List FileInfo) (fs : Fs),
    (∀ fi ∈ files, parent_path (dr ++ relative fi.path sd) ∉ fs.mkdirFail) →
    ∃ q, copy_from_source_loop fs files sd dr = Except.ok q := by
  intro files
  induction files with
  | nil => exact fun fs _ => ⟨(fs, 0), rfl⟩
  | cons fi rest ih =>
    intro fs hall
    have h1 : parent_path (dr ++ relative fi.path sd) ∉ fs.mkdirFail :=
      hall fi (List.mem_cons_self fi rest)
    have hmk : fs_create_directories fs (parent_path (dr ++ relative fi.path sd)) =
        Except.ok { fs with dirs :=
          fs.dirs ++ ancestors (parent_path (dr ++ relative fi.path sd)) } := by
      unfold fs_create_directories
      rw [if_neg h1]
    unfold copy_from_source_loop
    dsimp only
    rw [hmk]
    dsimp only
    have htail : ∀ (fsx : Fs), fsx.mkdirFail = fs.mkdirFail →
        ∀ g ∈ rest, parent_path (dr ++ relative g.path sd) ∉ fsx.mkdirFail := by
      intro fsx he g hg
      rw [he]
      exact hall g (List.mem_cons_of_mem fi hg)
    cases hcp : fs_copy_file
        { fs with dirs := fs.dirs ++ ancestors (parent_path (dr ++ relative fi.path sd)) }
        fi.path (dr ++ relative fi.path sd) with
    | error e =>
      dsimp only
      exact ih _ (htail _ rfl)
    | ok fs2 =>
      dsimp only
      obtain ⟨⟨fs3, n⟩, hq⟩ := ih fs2 (htail fs2 ((copy_ok_mkdirFail hcp).trans rfl))
      rw [hq]
      exact ⟨(fs3, n + 1), rfl⟩

/-- A successful full backup appends exactly one ledger record, which is marked non-incremental. -/
theorem create_backup_ok_record {w w' : World} {ts : String} {s b : List String}
    (h : create_backup w ts s b = Except.ok (true, w')) :
    ∃ r, w'.backup_history = w.backup_history ++ [r] ∧
      r.is_incremental = false ∧ r.based_on = "" := by
  unfold create_backup at h
  split at h
  · simp at h
  · dsimp only at h
    split at h
    · exact absurd h (by simp)
    · split at h
      · exact absurd h (by simp)
      · rename_i fs1 hmk p hcp
        simp only [Except.ok.injEq, Prod.mk.injEq, true_and] at h
        subst h
        exact ⟨_, append_history_line_history _ _, rfl, rfl⟩

/-- A `create_directories` failure for the snapshot directory aborts `create_backup` with an uncaught error. -/
theorem create_backup_mkdir_error (w : World) (ts : String) (s b : List String)
    (h1 : fs_exists w.fs s = true)
    (h2 : (b ++ ["backup_" ++ ts]) ∈ w.fs.mkdirFail) :
    create_backup w ts s b = Except.error "create_directories failed" := by
  have hmk : fs_create_directories w.fs (b ++ ["backup_" ++ ts]) =
      Except.error "create_directories failed" := by
    unfold fs_create_directories
    rw [if_pos h2]
  unfold create_backup
  rw [h1]
  dsimp only
  rw [hmk]
  rfl

/-! ### Invariance under the hard-link failure oracle -/

/-- Existence checks ignore the hard-link failure oracle. -/
theorem fs_exists_wlf (fs : Fs) (L : List (List String)) (p : List String) :
    fs_exists (with_linkFail fs L) p = fs_exists fs p := rfl

/-- Scanning ignores the hard-link failure oracle. -/
theorem scan_wlf (fs : Fs) (L : List (List String)) (d : List String) :
    scan_directory (with_linkFail fs L) d = scan_directory fs d := rfl

/-- Snapshot discovery ignores the hard-link failure oracle. -/
theorem snapshot_dirs_wlf (fs : Fs) (L : List (List String)) (b : List String) :
    snapshot_dirs (with_linkFail fs L) b = snapshot_dirs fs b := rfl

/-- `create_directories` commutes with replacing the hard-link failure oracle. -/
theorem mkdir_wlf (fs : Fs) (L : List (List String)) (p : List String) :
    fs_create_directories (with_linkFail fs L) p =
      (fs_create_directories fs p).map (fun f => with_linkFail f L) := by
  unfold fs_create_directories with_linkFail
  by_cases h : p ∈ fs.mkdirFail
  · rw [if_pos h, if_pos h]
    rfl
  · rw [if_neg h, if_neg h]
    rfl

/-- `copy_file` commutes with replacing the hard-link failure oracle. -/
theorem copy_wlf (fs : Fs) (L : List (List String)) (src dst : List String) :
    fs_copy_file (with_linkFail fs L) src dst =
      (fs_copy_file fs src dst).map (fun f => with_linkFail f L) := by
  unfold fs_copy_file
  dsimp only [with_linkFail]
  by_cases h1 : dst ∈ fs.copyFail
  · rw [if_pos h1, if_pos h1]
    rfl
  · rw [if_neg h1, if_neg h1]
    cases hf : fs.files.find? (fun f => f.path == src) with
    | none => rfl
    | some f =>
      dsimp only
      by_cases h2 : src ∈ fs.unreadable
      · rw [if_pos h2, if_pos h2]
        rfl
      · rw [if_neg h2, if_neg h2]
        rfl

/-- The source-copy loop commutes with replacing the hard-link failure oracle; in particular its count is unchanged. -/
theorem copy_loop_wlf (sd dr : List String) : ∀ (files : List FileInfo) (fs : Fs)
    (L : List (List String)),
    copy_from_source_loop (with_linkFail fs L) files sd dr =
      (copy_from_source_loop fs files sd dr).map (fun q => (with_linkFail q.1 L, q.2)) := by
  intro files
  induction files with
  | nil => intro fs L; rfl
  | cons fi rest ih =>
    intro fs L
    unfold copy_from_source_loop
    dsimp only
    rw [mkdir_wlf]
    cases hmk : fs_create_directories fs (parent_path (dr ++ relative fi.path sd)) with
    | error e => rfl
    | ok fs1 =>
      dsimp only [Except.map]
      rw [copy_wlf]
      cases hcp : fs_copy_file fs1 fi.path (dr ++ relative fi.path sd) with
      | error e =>
        dsimp only [Except.map]
        exact ih fs1 L
      | ok fs2 =>
        dsimp only [Except.map]
        rw [ih fs2 L]
        cases hlp : copy_from_source_loop fs2 rest sd dr with
        | error e => rfl
        | ok q => rfl

/-- A full backup's outcome and recorded ledger do not depend on the hard-link failure oracle. -/
theorem create_backup_wlf (w : World) (L : List (List String)) (ts : String)
    (s b : List String) :
    obs_run (create_backup (with_linkFail_w w L) ts s b) =
      obs_run (create_backup w ts s b) := by
  unfold create_backup
  dsimp only [with_linkFail_w]
  rw [fs_exists_wlf]
  cases hex : fs_exists w.fs s with
  | false => rfl
  | true =>
    rw [mkdir_wlf]
    cases hmk : fs_create_directories w.fs (b ++ ["backup_" ++ ts]) with
    | error e => rfl
    | ok fs1 =>
      dsimp only [Except.map]
      rw [scan_wlf, copy_loop_wlf]
      cases hcl : copy_from_source_loop fs1 (scan_directory fs1 s) s
          (b ++ ["backup_" ++ ts]) with
      | error e => rfl
      | ok q =>
        obtain ⟨fs2, n⟩ := q
        simp [obs_run, append_history_line_history, Except.map]

/-- A step with an error component threw that error. -/
theorem res_err_some {r : Except String Fs} {e : String} (h : res_err r = some e) :
    r = Except.error e := by
  cases r with
  | ok f => exact absurd h (by simp [res_err])
  | error e2 =>
    unfold res_err at h
    rw [Option.some_inj] at h
    rw [h]

/-- A step without an error component succeeded. -/
theorem res_err_none {r : Except String Fs} (h : res_err r = none) :
    ∃ f, r = Except.ok f := by
  cases r with
  | ok f => exact ⟨f, rfl⟩
  | error e => exact absurd h (by simp [res_err])

/-- Whether (and with which error) the carry-forward loop throws depends only on the directory-creation failure oracle: hard-link or fallback-copy failures are caught per file, only the uncaught `create_directories` failures escape. -/
theorem link_loop_err_invariant (source_files : List FileInfo) (sd lb dr : List String) :
    ∀ (bfs : List FileInfo) (fs1 fs2 : Fs), fs1.mkdirFail = fs2.mkdirFail →
      res_err (link_from_prior_loop fs1 bfs source_files sd lb dr) =
        res_err (link_from_prior_loop fs2 bfs source_files sd lb dr) := by
  intro bfs
  induction bfs with
  | nil => intro fs1 fs2 h; rfl
  | cons bf rest ih =>
    intro fs1 fs2 h
    unfold link_from_prior_loop
    by_cases hn : need_copy_from_prior bf source_files sd lb = true
    · rw [if_pos hn, if_pos hn]
      dsimp only
      have key : ∀ (fsa fsb : Fs), fsa.mkdirFail = fs1.mkdirFail →
          fsb.mkdirFail = fs2.mkdirFail →
          res_err (link_from_prior_loop fsa rest source_files sd lb dr) =
            res_err (link_from_prior_loop fsb rest source_files sd lb dr) := by
        intro fsa fsb ha hb
        refine ih fsa fsb ?_
        rw [ha, hb]
        exact h
      by_cases hm : parent_path (dr ++ relative bf.path lb) ∈ fs1.mkdirFail
      · have hm2 : parent_path (dr ++ relative bf.path lb) ∈ fs2.mkdirFail := h ▸ hm
        have e1 : fs_create_directories fs1 (parent_path (dr ++ relative bf.path lb)) =
            Except.error "create_directories failed" := by
          unfold fs_create_directories
          rw [if_pos hm]
        have e2 : fs_create_directories fs2 (parent_path (dr ++ relative bf.path lb)) =
            Except.error "create_directories failed" := by
          unfold fs_create_directories
          rw [if_pos hm2]
        rw [e1, e2]
      · have hm2 : parent_path (dr ++ relative bf.path lb) ∉ fs2.mkdirFail := by
          rw [← h]; exact hm
        have e1 : fs_create_directories fs1 (parent_path (dr ++ relative bf.path lb)) =
            Except.ok { fs1 with dirs := fs1.dirs ++ ancestors (parent_path (dr ++ relative bf.path lb)) } := by
          unfold fs_create_directories
          rw [if_neg hm]
        have e2 : fs_create_directories fs2 (parent_path (dr ++ relative bf.path lb)) =
            Except.ok { fs2 with dirs := fs2.dirs ++ ancestors (parent_path (dr ++ relative bf.path lb)) } := by
          unfold fs_create_directories
          rw [if_neg hm2]
        rw [e1, e2]
        dsimp only
        cases hL1 : fs_create_hard_link
            { fs1 with dirs := fs1.dirs ++ ancestors (parent_path (dr ++ relative bf.path lb)) }
            bf.path (dr ++ relative bf.path lb) with
        | ok f1 =>
          cases hL2 : fs_create_hard_link
              { fs2 with dirs := fs2.dirs ++ ancestors (parent_path (dr ++ relative bf.path lb)) }
              bf.path (dr ++ relative bf.path lb) with
          | ok f2 => exact key f1 f2 ((link_ok_mkdirFail hL1).trans rfl) ((link_ok_mkdirFail hL2).trans rfl)
          | error e =>
            cases hC2 : fs_copy_file
                { fs2 with dirs := fs2.dirs ++ ancestors (parent_path (dr ++ relative bf.path lb)) }
                bf.path (dr ++ relative bf.path lb) with
            | ok f2 => exact key f1 f2 ((link_ok_mkdirFail hL1).trans rfl) ((copy_ok_mkdirFail hC2).trans rfl)
            | error e2 => exact key f1 _ ((link_ok_mkdirFail hL1).trans rfl) rfl
        | error e =>
          cases hC1 : fs_copy_file
              { fs1 with dirs := fs1.dirs ++ ancestors (parent_path (dr ++ relative bf.path lb)) }
              bf.path (dr ++ relative bf.path lb) with
          | ok f1 =>
            cases hL2 : fs_create_hard_link
                { fs2 with dirs := fs2.dirs ++ ancestors (parent_path (dr ++ relative bf.path lb)) }
                bf.path (dr ++ relative bf.path lb) with
            | ok f2 => exact key f1 f2 ((copy_ok_mkdirFail hC1).trans rfl) ((link_ok_mkdirFail hL2).trans rfl)
            | error e2 =>
              cases hC2 : fs_copy_file
                  { fs2 with dirs := fs2.dirs ++ ancestors (parent_path (dr ++ relative bf.path lb)) }
                  bf.path (dr ++ relative bf.path lb) with
              | ok f2 => exact key f1 f2 ((copy_ok_mkdirFail hC1).trans rfl) ((copy_ok_mkdirFail hC2).trans rfl)
              | error e3 => exact key f1 _ ((copy_ok_mkdirFail hC1).trans rfl) rfl
          | error e1 =>
            cases hL2 : fs_create_hard_link
                { fs2 with dirs := fs2.dirs ++ ancestors (parent_path (dr ++ relative bf.path lb)) }
                bf.path (dr ++ relative bf.path lb) with
            | ok f2 => exact key _ f2 rfl ((link_ok_mkdirFail hL2).trans rfl)
            | error e2 =>
              cases hC2 : fs_copy_file
                  { fs2 with dirs := fs2.dirs ++ ancestors (parent_path (dr ++ relative bf.path lb)) }
                  bf.path (dr ++ relative bf.path lb) with
              | ok f2 => exact key _ f2 rfl ((copy_ok_mkdirFail hC2).trans rfl)
              | error e3 => exact key _ _ rfl rfl
    · rw [if_neg hn]
      rw [if_neg hn]
      exact ih fs1 fs2 h

/-! ### Claim theorems -/

/-- Claim C1: refuted by the code (code bug). In `W1` the file `f.txt` is byte-identical between source and prior snapshot, yet the incremental run classifies it as to-copy (the double-parent relative-path computation of line 189 only matches files at depth exactly two below the snapshot root), copies its bytes from the source tree (`copied_files = 1`), and the carry-forward pass does not select the prior record for linking — `need_copy` is `false` exactly for unchanged files, contradicting the code's own comment that this pass copies the unmodified files from the old backup. -/
theorem c1_unchanged_file_recopied_not_linked :
    file_content W1.fs ["src", "f.txt"] =
      file_content W1.fs ["bak", "backup_20240101_120000", "f.txt"] ∧
    files_to_backup (scan_directory W1.fs ["src"])
      (scan_directory W1.fs ["bak", "backup_20240101_120000"]) ["src"]
      = [⟨["src", "f.txt"], "A", 1, 0⟩] ∧
    need_copy_from_prior ⟨["bak", "backup_20240101_120000", "f.txt"], "A", 1, 0⟩
      (scan_directory W1.fs ["src"]) ["src"] ["bak", "backup_20240101_120000"] = false ∧
    run_copied (incremental_backup W1 "20240102_120000" ["src"] ["bak"]) = some [1] ∧
    run_file (incremental_backup W1 "20240102_120000" ["src"] ["bak"])
      ["bak", "backup_20240102_120000", "f.txt"] = some "A" :=
  ⟨rfl, rfl, rfl, rfl, rfl⟩

/-- Claim C2 counterexample: in `W2` the prior snapshot's `gone.txt` is written into the new snapshot by the copy fallback after its forced hard-link failure (it appears there with its prior content), so under the claim `filesWritten` should be 2 (one source copy plus one fallback copy); the recorded `copied_files` is 1 — only the source-tree copy of `new.txt` is counted. -/
theorem c2_fallback_copy_not_counted :
    (["bak", "backup_20240102_120000", "gone.txt"] ∈ W2.fs.linkFail) ∧
    run_file (incremental_backup W2 "20240102_120000" ["src"] ["bak"])
      ["bak", "backup_20240102_120000", "gone.txt"] = some "OLD" ∧
    run_copied (incremental_backup W2 "20240102_120000" ["src"] ["bak"]) = some [1] :=
  ⟨by decide, rfl, rfl⟩

/-- Claim C2 (amended): the outcome flag and the full recorded ledger — in particular every stored `copied_files` value — are invariant under arbitrary replacement of the set of failing hard-link creations; the count is computed solely by the source-copy loop, and copy-fallback writes for failed links never contribute to the recorded `filesWritten`. -/
theorem c2_copied_files_ignores_link_failures (w : World) (L : List (List String))
    (ts : String) (s b : List String) :
    obs_run (incremental_backup (with_linkFail_w w L) ts s b) =
      obs_run (incremental_backup w ts s b) := by
  unfold incremental_backup
  dsimp only [with_linkFail_w]
  rw [fs_exists_wlf, fs_exists_wlf, snapshot_dirs_wlf, scan_wlf, scan_wlf]
  cases hex : fs_exists w.fs s with
  | false => rfl
  | true =>
    cases hbx : fs_exists w.fs b with
    | false => rfl
    | true =>
      cases hsd : (snapshot_dirs w.fs b).isEmpty with
      | true => exact create_backup_wlf w L ts s b
      | false =>
        cases htb : (files_to_backup (scan_directory w.fs s)
            (scan_directory w.fs (latest_snapshot (snapshot_dirs w.fs b))) s).isEmpty with
        | true => rfl
        | false =>
          rw [mkdir_wlf]
          cases hmk : fs_create_directories w.fs (b ++ ["backup_" ++ ts]) with
          | error e => rfl
          | ok fs1 =>
            dsimp only [Except.map]
            rw [copy_loop_wlf]
            cases hcl : copy_from_source_loop fs1 (files_to_backup (scan_directory w.fs s)
                (scan_directory w.fs (latest_snapshot (snapshot_dirs w.fs b))) s) s
                (b ++ ["backup_" ++ ts]) with
            | error e => rfl
            | ok q =>
              obtain ⟨fs2, n⟩ := q
              dsimp only [Except.map]
              have hres := link_loop_err_invariant (scan_directory w.fs s) s
                (latest_snapshot (snapshot_dirs w.fs b)) (b ++ ["backup_" ++ ts])
                (scan_directory w.fs (latest_snapshot (snapshot_dirs w.fs b)))
                (with_linkFail fs2 L) fs2 rfl
              cases hll : link_from_prior_loop fs2
                  (scan_directory w.fs (latest_snapshot (snapshot_dirs w.fs b)))
                  (scan_directory w.fs s) s (latest_snapshot (snapshot_dirs w.fs b))
                  (b ++ ["backup_" ++ ts]) with
              | error e =>
                have hLL : link_from_prior_loop (with_linkFail fs2 L)
                    (scan_directory w.fs (latest_snapshot (snapshot_dirs w.fs b)))
                    (scan_directory w.fs s) s (latest_snapshot (snapshot_dirs w.fs b))
                    (b ++ ["backup_" ++ ts]) = Except.error e := by
                  refine res_err_some ?_
                  rw [hres, hll]
                  rfl
                rw [hLL]
                rfl
              | ok fs3 =>
                obtain ⟨fs3l, h3l⟩ := res_err_none (r := link_from_prior_loop
                  (with_linkFail fs2 L)
                  (scan_directory w.fs (latest_snapshot (snapshot_dirs w.fs b)))
                  (scan_directory w.fs s) s (latest_snapshot (snapshot_dirs w.fs b))
                  (b ++ ["backup_" ++ ts])) (by rw [hres, hll]; rfl)
                rw [h3l]
                simp [obs_run, append_history_line_history, Except.map]

/-- Claim C3 counterexample: the no-changes outcome is not distinct from failure. In `W3` an incremental run with zero source changes returns exactly `Except.ok (false, W3)` — the same observable outcome the same function produces for a missing source root, which the claim calls a failure. -/
theorem c3_no_changes_same_outcome_as_failure :
    (files_to_backup (scan_directory W3.fs ["src"])
      (scan_directory W3.fs ["bak", "backup_20240101_120000"]) ["src"]).isEmpty = true ∧
    incremental_backup W3 "20240102_120000" ["src"] ["bak"] = Except.ok (false, W3) ∧
    fs_exists W3.fs ["nosuch"] = false ∧
    incremental_backup W3 "20240102_120000" ["nosuch"] ["bak"] = Except.ok (false, W3) :=
  ⟨rfl, rfl, rfl, rfl⟩

/-- Claim C3 (amended): when the source root exists, a prior snapshot exists, and no source file is classified as new or modified, the incremental run returns `false` — the same boolean a failed invocation returns; the distinction survives only as a console message — and the state is completely unchanged: no snapshot directory is created, and the in-memory ledger and the history file are untouched. -/
theorem c3_no_changes_noop (w : World) (ts : String) (s b : List String)
    (h1 : fs_exists w.fs s = true) (h2 : fs_exists w.fs b = true)
    (h3 : (snapshot_dirs w.fs b).isEmpty = false)
    (h4 : (files_to_backup (scan_directory w.fs s)
      (scan_directory w.fs (latest_snapshot (snapshot_dirs w.fs b))) s).isEmpty = true) :
    incremental_backup w ts s b = Except.ok (false, w) := by
  unfold incremental_backup
  simp [h1, h2, h3, h4]

/-- Witness for `c3_no_changes_noop` at the concrete no-changes world `W3`. -/
theorem c3_no_changes_noop_witness :
    fs_exists W3.fs ["src"] = true ∧ fs_exists W3.fs ["bak"] = true ∧
    (snapshot_dirs W3.fs ["bak"]).isEmpty = false ∧
    (files_to_backup (scan_directory W3.fs ["src"])
      (scan_directory W3.fs (latest_snapshot (snapshot_dirs W3.fs ["bak"]))) ["src"]).isEmpty
      = true ∧
    incremental_backup W3 "20240103_120000" ["src"] ["bak"] = Except.ok (false, W3) :=
  ⟨rfl, rfl, rfl, rfl,
    c3_no_changes_noop W3 "20240103_120000" ["src"] ["bak"] rfl rfl rfl rfl⟩

/-- Claim C4 counterexample: a `create_directories` failure for the snapshot directory propagates uncaught out of both `create_backup` and `incremental_backup` (the calls at lines 108 and 205 stand outside every try block). -/
theorem c4_uncaught_mkdir_exception :
    create_backup W4 "20240102_120000" ["src"] ["bak"]
      = Except.error "create_directories failed" ∧
    incremental_backup W4 "20240102_120000" ["src"] ["bak"]
      = Except.error "create_directories failed" :=
  ⟨rfl, rfl⟩

/-- Claim C4 (amended): per-file faults are caught at file granularity — the scan inventories exactly the readable files under the root and never throws, and the copy loop never throws as long as directory creation succeeds (a failing `copy_file` is caught and the loop continues) — but `create_directories` failures are not caught and propagate past the top of the invocation. -/
theorem c4_fault_granularity :
    (∀ (fs : Fs) (d : List String) (r : FileInfo),
      r ∈ scan_directory fs d ↔
        ∃ f ∈ fs.files, under_dir d f.path = true ∧ f.path ∉ fs.unreadable ∧
          r = file_record f) ∧
    (∀ (w : World) (ts : String) (s b : List String),
      fs_exists w.fs s = true → (b ++ ["backup_" ++ ts]) ∈ w.fs.mkdirFail →
      create_backup w ts s b = Except.error "create_directories failed") ∧
    (∀ (sd dr : List String) (files : List FileInfo) (fs : Fs),
      (∀ fi ∈ files, parent_path (dr ++ relative fi.path sd) ∉ fs.mkdirFail) →
      ∃ q, copy_from_source_loop fs files sd dr = Except.ok q) :=
  ⟨scan_mem_iff, create_backup_mkdir_error, fun sd dr => copy_loop_total sd dr⟩

/-- Witness for `c4_fault_granularity`: its directory-creation and copy-loop parts applied at the concrete world `W4`. -/
theorem c4_fault_granularity_witness :
    fs_exists W4.fs ["src"] = true ∧
    (["bak"] ++ ["backup_" ++ "20240102_120000"]) ∈ W4.fs.mkdirFail ∧
    create_backup W4 "20240102_120000" ["src"] ["bak"]
      = Except.error "create_directories failed" ∧
    (∃ q, copy_from_source_loop W4.fs [⟨["src", "a.txt"], "A", 1, 0⟩] ["src"] ["out"]
      = Except.ok q) :=
  ⟨rfl, by decide,
    c4_fault_granularity.2.1 W4 "20240102_120000" ["src"] ["bak"] rfl (by decide),
    c4_fault_granularity.2.2 ["src"] ["out"] [⟨["src", "a.txt"], "A", 1, 0⟩] W4.fs
      (by decide)⟩

/-- Claim C5: refuted by the code (code bug). In `W5` the source file `x/f.txt` has content B while the prior snapshot's file at the same relative path has content A — the bytes differ — yet the run reports no changes and copies nothing: the lookup of line 189 matches prior records by their last two path components only, so the unrelated prior record `d/x/f.txt` (content B) is found first and the digest comparison is made against the wrong file. -/
theorem c5_modified_file_reported_unchanged :
    file_content W5.fs ["src", "x", "f.txt"] = some "B" ∧
    file_content W5.fs ["bak", "backup_20240101_120000", "x", "f.txt"] = some "A" ∧
    files_to_backup (scan_directory W5.fs ["src"])
      (scan_directory W5.fs ["bak", "backup_20240101_120000"]) ["src"] = [] ∧
    incremental_backup W5 "20240102_120000" ["src"] ["bak"] = Except.ok (false, W5) :=
  ⟨rfl, rfl, rfl, rfl⟩

/-- Claim C6: when the source root exists and the backup root exists but contains no `backup_`-prefixed immediate subdirectory, an incremental request performs exactly a full backup, and a successful full backup appends a ledger record with `is_incremental = false` and an empty `based_on`. -/
theorem c6_no_prior_redirects_to_full (w : World) (ts : String) (s b : List String)
    (h1 : fs_exists w.fs s = true) (h2 : fs_exists w.fs b = true)
    (h3 : snapshot_dirs w.fs b = []) :
    incremental_backup w ts s b = create_backup w ts s b ∧
    ∀ w', create_backup w ts s b = Except.ok (true, w') →
      ∃ r, w'.backup_history = w.backup_history ++ [r] ∧
        r.is_incremental = false ∧ r.based_on = "" := by
  constructor
  · unfold incremental_backup
    simp [h1, h2, h3]
  · intro w' h
    exact create_backup_ok_record h

/-- Witness for `c6_no_prior_redirects_to_full` at the empty backup root `W6`. -/
theorem c6_no_prior_redirects_to_full_witness :
    fs_exists W6.fs ["src"] = true ∧ fs_exists W6.fs ["bak"] = true ∧
    snapshot_dirs W6.fs ["bak"] = [] ∧
    (incremental_backup W6 "20240102_120000" ["src"] ["bak"]
        = create_backup W6 "20240102_120000" ["src"] ["bak"] ∧
      ∀ w', create_backup W6 "20240102_120000" ["src"] ["bak"] = Except.ok (true, w') →
        ∃ r, w'.backup_history = W6.backup_history ++ [r] ∧
          r.is_incremental = false ∧ r.based_on = "") :=
  ⟨rfl, rfl, rfl,
    c6_no_prior_redirects_to_full W6 "20240102_120000" ["src"] ["bak"] rfl rfl rfl⟩

/-- Claim C7: refuted by the code (code bug). In `W7` hard-link creation for the unchanged `sub/a.txt` is forced to fail, as in Scenario E of the specification, yet the file does not appear in the new snapshot at all: the carry-forward pass skips unchanged files (`need_copy` is `false` for them), so the link-then-fallback machinery of lines 240-250 is never even attempted for an unchanged file. -/
theorem c7_unchanged_file_absent_despite_fallback :
    (["bak", "backup_20240102_120000", "sub", "a.txt"] ∈ W7.fs.linkFail) ∧
    run_outcome (incremental_backup W7 "20240102_120000" ["src"] ["bak"]) = some true ∧
    need_copy_from_prior ⟨["bak", "backup_20240101_120000", "sub", "a.txt"], "A", 1, 0⟩
      (scan_directory W7.fs ["src"]) ["src"] ["bak", "backup_20240101_120000"] = false ∧
    run_file (incremental_backup W7 "20240102_120000" ["src"] ["bak"])
      ["bak", "backup_20240102_120000", "sub", "a.txt"] = none ∧
    run_file (incremental_backup W7 "20240102_120000" ["src"] ["bak"])
      ["bak", "backup_20240102_120000", "n.txt"] = some "N" :=
  ⟨by decide, rfl, rfl, rfl, rfl⟩

/-- Claim C8: if the source root does not exist, both the full and the incremental backup return `false` and leave the entire state unchanged — no snapshot directory is created, no ledger record is appended, and the history file is untouched. -/
theorem c8_missing_source_root_noop (w : World) (ts : String) (s b : List String)
    (h : fs_exists w.fs s = false) :
    create_backup w ts s b = Except.ok (false, w) ∧
    incremental_backup w ts s b = Except.ok (false, w) := by
  unfold create_backup incremental_backup
  simp [h]

/-- Witness for `c8_missing_source_root_noop` at the empty world `W8`. -/
theorem c8_missing_source_root_noop_witness :
    fs_exists W8.fs ["src"] = false ∧
    create_backup W8 "20240102_120000" ["src"] ["bak"] = Except.ok (false, W8) ∧
    incremental_backup W8 "20240102_120000" ["src"] ["bak"] = Except.ok (false, W8) :=
  ⟨rfl, (c8_missing_source_root_noop W8 "20240102_120000" ["src"] ["bak"] rfl).1,
    (c8_missing_source_root_noop W8 "20240102_120000" ["src"] ["bak"] rfl).2⟩

/-- Claim C9 counterexample: in `W9` the unchanged file `docs/r.txt` is present in both the source tree and the prior snapshot but absent from the new snapshot — it is skipped by the copy phase and by the carry-forward phase alike — so the new snapshot's file set is not the union of the source files and the prior-snapshot files. -/
theorem c9_snapshot_not_union :
    run_outcome (incremental_backup W9 "20240102_120000" ["src"] ["bak"]) = some true ∧
    file_content W9.fs ["src", "docs", "r.txt"] = some "R" ∧
    file_content W9.fs ["bak", "backup_20240101_120000", "docs", "r.txt"] = some "R" ∧
    run_file (incremental_backup W9 "20240102_120000" ["src"] ["bak"])
      ["bak", "backup_20240102_120000", "docs", "r.txt"] = none :=
  ⟨rfl, rfl, rfl, rfl⟩

/-- Claim C9 (amended): a prior-snapshot record is selected for carry-forward exactly when no source record has both the same relative path and the same digest; files deleted from the source are therefore always selected and are linked into the new snapshot with their prior content (concretely, `old.txt` of `W9` is carried forward while the new `add.txt` is copied), but unchanged files are skipped by this phase, so the new snapshot is not the source-prior union. -/
theorem c9_carry_forward_classification :
    (∀ (bf : FileInfo) (source_files : List FileInfo) (sd lb : List String),
      need_copy_from_prior bf source_files sd lb = true ↔
        ∀ sf ∈ source_files,
          ¬(relative sf.path sd = relative bf.path lb ∧ sf.md5 = bf.md5)) ∧
    run_file (incremental_backup W9 "20240102_120000" ["src"] ["bak"])
      ["bak", "backup_20240102_120000", "old.txt"] = some "D" ∧
    run_file (incremental_backup W9 "20240102_120000" ["src"] ["bak"])
      ["bak", "backup_20240102_120000", "add.txt"] = some "Z" := by
  refine ⟨?_, rfl, rfl⟩
  intro bf source_files sd lb
  unfold need_copy_from_prior
  rw [Bool.not_eq_true', List.any_eq_false]
  constructor
  · intro h sf hsf hc
    have := h sf hsf
    rw [hc.1, hc.2] at this
    simp at this
  · intro h sf hsf
    have hne := h sf hsf
    intro hc
    rw [Bool.and_eq_true, beq_iff_eq, beq_iff_eq] at hc
    exact hne hc

/-- Claim C10: a full backup of an existing source directory containing no regular file succeeds: the snapshot directory `backup_<timestamp>` is created, a ledger record with `file_count = 0` and `copied_files = 0` is appended, and one line is appended to the history file. -/
theorem c10_empty_source_full_backup (w : World) (ts : String) (s b : List String)
    (h1 : fs_exists w.fs s = true)
    (h2 : w.fs.files.all (fun f => !(under_dir s f.path)) = true)
    (h3 : (b ++ ["backup_" ++ ts]) ∉ w.fs.mkdirFail)
    (h4 : w.fs.historyFail = false) :
    ∃ w' line,
      create_backup w ts s b = Except.ok (true, w') ∧
      w'.backup_history = w.backup_history ++
        [⟨ts, b ++ ["backup_" ++ ts], 0, 0, s, false, ""⟩] ∧
      w'.historyFile = w.historyFile ++ [line] ∧
      (b ++ ["backup_" ++ ts]) ∈ w'.fs.dirs := by
  have hmk : fs_create_directories w.fs (b ++ ["backup_" ++ ts]) =
      Except.ok { w.fs with dirs := w.fs.dirs ++ ancestors (b ++ ["backup_" ++ ts]) } := by
    unfold fs_create_directories
    rw [if_neg h3]
  have hs : scan_directory
      { w.fs with dirs := w.fs.dirs ++ ancestors (b ++ ["backup_" ++ ts]) } s = [] :=
    scan_nil_of_no_files h2
  unfold create_backup
  rw [h1]
  dsimp only
  rw [hmk]
  dsimp only
  rw [hs]
  dsimp only [copy_from_source_loop, List.length_nil]
  rw [append_history_line_ok _ (by exact h4)]
  refine ⟨_, _, rfl, rfl, rfl, ?_⟩
  exact List.mem_append.mpr (Or.inr (ancestors_self (by simp)))

/-- Witness for `c10_empty_source_full_backup` at the fileless source `W10`. -/
theorem c10_empty_source_full_backup_witness :
    fs_exists W10.fs ["src"] = true ∧
    W10.fs.files.all (fun f => !(under_dir ["src"] f.path)) = true ∧
    (["bak"] ++ ["backup_" ++ "20240102_120000"]) ∉ W10.fs.mkdirFail ∧
    W10.fs.historyFail = false ∧
    (∃ w' line,
      create_backup W10 "20240102_120000" ["src"] ["bak"] = Except.ok (true, w') ∧
      w'.backup_history = W10.backup_history ++
        [⟨"20240102_120000", ["bak"] ++ ["backup_" ++ "20240102_120000"], 0, 0,
          ["src"], false, ""⟩] ∧
      w'.historyFile = W10.historyFile ++ [line] ∧
      (["bak"] ++ ["backup_" ++ "20240102_120000"]) ∈ w'.fs.dirs) :=
  ⟨rfl, rfl, by decide, rfl,
    c10_empty_source_full_backup W10 "20240102_120000" ["src"] ["bak"] rfl rfl
      (by decide) rfl⟩

end BackupApp
